import Mathlib

/-!
Verification of the resume-tailoring backend (tmbackend).

Shallow embedding of the request-handling layer: auth gate (auth.py),
resume CRUD and login handlers (api.py), the tailoring pipeline glue
(run_tailor.py), over an explicit document-store state.  Machine time is
modelled as `Nat` (seconds), MongoDB ObjectIds as their 24-hex-char string
form, and collections as lists in natural (insertion) order, matching
Mongo's `find_one` (first match) and `update_one` (first match) behaviour.
External collaborators (Google token verification, the CrewAI pipeline,
pydantic JSON validation, reportlab layout) are oracle parameters.
-/

deriving instance DecidableEq for Except

/-- An HTTP error as raised by `fastapi.HTTPException`: a status code plus a
`detail` message. -/
structure HErr where
  status : Nat
  detail : String
deriving DecidableEq, Repr

/-- Validity of a Mongo ObjectId in string form (`bson.ObjectId.is_valid`):
exactly 24 hexadecimal characters. -/
def ObjectId.isValid (s : String) : Bool :=
  s.data.length == 24 &&
    s.data.all (fun c => c.isDigit || ('a' ≤ c && c ≤ 'f') || ('A' ≤ c && c ≤ 'F'))

/-- Mongo `update_one`: apply `f` to the first element satisfying `p`, leave
everything else unchanged. -/
def updateFirst (p : α → Bool) (f : α → α) : List α → List α
  | [] => []
  | x :: xs => if p x then f x :: xs else x :: updateFirst p f xs

/-- A document in the `users` collection (models.py `UserInDB`); `id` is the
string form of the Mongo `_id`. -/
structure UserRec where
  id : String
  google_sub : String
  email : String
  created_at : Nat
  last_login_at : Nat
deriving DecidableEq, Repr

/-- A document in the `resumes` collection (models.py `ResumeInDB`).  The
`content` field is a free-form document opaque to this layer; it is modelled
by its serialized form. -/
structure ResumeRec where
  id : String
  user_id : String
  target_role : String
  content : String
  date_uploaded : Nat
  updated_at : Nat
  is_deleted : Bool
deriving DecidableEq, Repr

/-- A document in the `tailored_resumes` collection (api.py `tailor_endpoint`
insert). -/
structure ArtifactRec where
  id : String
  user_id : String
  filename : String
  mime : String
  pdfData : List Nat
  jobLink : Option String
  createdAt : Nat
deriving DecidableEq, Repr

/-- The document store: the three collections used by the handlers, each as a
list in natural order. -/
structure DB where
  users : List UserRec
  resumes : List ResumeRec
  tailored : List ArtifactRec
deriving DecidableEq, Repr

/-- models.py `UserResponse`. -/
structure UserResponse where
  id : String
  email : String
  created_at : Nat
  last_login_at : Nat
deriving DecidableEq, Repr

/-- models.py `ResumeResponse`. -/
structure ResumeResponse where
  id : String
  target_role : String
  content : String
  date_uploaded : Nat
  updated_at : Nat
deriving DecidableEq, Repr

/-- models.py `ResumeListItem`. -/
structure ResumeListItem where
  id : String
  target_role : String
  date_uploaded : Nat
  updated_at : Nat
deriving DecidableEq, Repr

/-- models.py `ResumeUpdate`: a partial update; `none` is an absent field. -/
structure ResumeUpdate where
  target_role : Option String
  content : Option String
deriving DecidableEq, Repr

/-! ## Auth gate (auth.py) -/

/-- The session credential as seen by `get_current_user_id`: the cookie is
absent, or present but not decodable as a JWT at all, or a decodable token
with an optional `sub` claim, a signature that does or does not verify
against the process secret, and an `exp` timestamp.  `python-jose` raises
`JWTError` for a malformed token or a bad signature and
`ExpiredSignatureError` (a `JWTError`) when `exp < now`. -/
inductive Cookie where
  | missing
  | malformed
  | token (sub : Option String) (sigOk : Bool) (exp : Nat)
deriving DecidableEq, Repr

/-- auth.py `get_current_user_id` composed with `verify_token`: missing
cookie is rejected before decoding; then `jwt.decode` (signature, then
expiry) and the `sub` lookup. -/
def get_current_user_id (now : Nat) : Cookie → Except HErr String
  | .missing => .error ⟨401, "Not authenticated"⟩
  | .malformed => .error ⟨401, "Invalid authentication credentials"⟩
  | .token sub sigOk exp =>
    if !sigOk then .error ⟨401, "Invalid authentication credentials"⟩
    else if exp < now then .error ⟨401, "Invalid authentication credentials"⟩
    else
      match sub with
      | none => .error ⟨401, "Invalid authentication credentials"⟩
      | some uid => .ok uid

/-- api.py `get_current_user` (GET /auth/me): after the auth gate,
`ObjectId(user_id)` raises `bson.errors.InvalidId` on a malformed id — an
unhandled exception, surfacing as a 500 — then `find_one` by `_id`. -/
def auth_me (db : DB) (now : Nat) (cookie : Cookie) : Except HErr UserResponse :=
  match get_current_user_id now cookie with
  | .error e => .error e
  | .ok uid =>
    if ObjectId.isValid uid then
      match db.users.find? (fun u => u.id == uid) with
      | none => .error ⟨404, "User not found"⟩
      | some u => .ok ⟨u.id, u.email, u.created_at, u.last_login_at⟩
    else .error ⟨500, "Internal Server Error"⟩

/-! ## Login (api.py `google_login`, after external credential verification) -/

/-- The `{google_sub, email}` result of `verify_google_token` (the external
credential verifier, an oracle as far as this layer is concerned). -/
structure UserInfo where
  google_sub : String
  email : String
deriving DecidableEq, Repr

/-- The `user` object in the login response body. -/
structure LoginResult where
  user_id : String
  email : String
deriving DecidableEq, Repr

/-- api.py `google_login` after successful external verification: look up by
`google_sub`; if found, `update_one` sets `last_login_at` and the existing id
is returned; otherwise `insert_one` a fresh record with
`created_at = last_login_at = now`.  `freshId` is the ObjectId Mongo mints
for the insert. -/
def google_login (db : DB) (info : UserInfo) (now : Nat) (freshId : String) :
    DB × LoginResult :=
  match db.users.find? (fun u => u.google_sub == info.google_sub) with
  | some existing =>
    let users2 := updateFirst (fun u => u.google_sub == info.google_sub)
      (fun u => { u with last_login_at := now }) db.users
    ({ db with users := users2 }, ⟨existing.id, info.email⟩)
  | none =>
    let newUser : UserRec :=
      { id := freshId, google_sub := info.google_sub, email := info.email,
        created_at := now, last_login_at := now }
    ({ db with users := db.users ++ [newUser] }, ⟨freshId, info.email⟩)

/-! ## Resume CRUD (api.py) -/

/-- The visibility filter shared by get/update/delete:
`{_id: rid, user_id: uid, is_deleted: False}`. -/
def visibleFilter (uid rid : String) (r : ResumeRec) : Bool :=
  r.id == rid && r.user_id == uid && !r.is_deleted

/-- api.py `get_resume` (GET /resumes/{id}). -/
def get_resume (db : DB) (uid rid : String) : Except HErr ResumeResponse :=
  if !(ObjectId.isValid rid) then .error ⟨400, "Invalid resume ID"⟩
  else
    match db.resumes.find? (visibleFilter uid rid) with
    | none => .error ⟨404, "Resume not found"⟩
    | some r => .ok ⟨r.id, r.target_role, r.content, r.date_uploaded, r.updated_at⟩

/-- The `update_data` dict of api.py `update_resume`: always sets
`updated_at`, and sets `target_role` / `content` only when present in the
partial update. -/
def apply_update (upd : ResumeUpdate) (now : Nat) (r : ResumeRec) : ResumeRec :=
  { r with updated_at := now,
           target_role := upd.target_role.getD r.target_role,
           content := upd.content.getD r.content }

/-- api.py `update_resume` (PUT /resumes/{id}): id-format check, visibility
check, `update_one` by `_id` alone, then a fresh `find_one` by `_id` for the
response body. -/
def update_resume (db : DB) (uid rid : String) (upd : ResumeUpdate) (now : Nat) :
    DB × Except HErr ResumeResponse :=
  if !(ObjectId.isValid rid) then (db, .error ⟨400, "Invalid resume ID"⟩)
  else
    match db.resumes.find? (visibleFilter uid rid) with
    | none => (db, .error ⟨404, "Resume not found"⟩)
    | some _ =>
      let resumes2 := updateFirst (fun r => r.id == rid) (apply_update upd now) db.resumes
      let db2 : DB := { db with resumes := resumes2 }
      match resumes2.find? (fun r => r.id == rid) with
      | none => (db2, .error ⟨500, "Internal Server Error"⟩)
      | some r =>
        (db2, .ok ⟨r.id, r.target_role, r.content, r.date_uploaded, r.updated_at⟩)

/-- api.py `delete_resume` (DELETE /resumes/{id}): id-format check,
visibility check, then `update_one` by `_id` setting the soft-delete flag and
`updated_at`. -/
def delete_resume (db : DB) (uid rid : String) (now : Nat) :
    DB × Except HErr String :=
  if !(ObjectId.isValid rid) then (db, .error ⟨400, "Invalid resume ID"⟩)
  else
    match db.resumes.find? (visibleFilter uid rid) with
    | none => (db, .error ⟨404, "Resume not found"⟩)
    | some _ =>
      let resumes2 := updateFirst (fun r => r.id == rid)
        (fun r => { r with is_deleted := true, updated_at := now }) db.resumes
      ({ db with resumes := resumes2 }, .ok "Resume deleted successfully")

/-- Descending insertion by `updated_at`: one step of the model of Mongo's
`.sort("updated_at", -1)`. -/
def insertByUpdatedDesc (r : ResumeRec) : List ResumeRec → List ResumeRec
  | [] => [r]
  | x :: xs =>
    if x.updated_at < r.updated_at then r :: x :: xs
    else x :: insertByUpdatedDesc r xs

/-- Model of Mongo's `.sort("updated_at", -1)`: a stable sort, descending by
`updated_at`. -/
def sortByUpdatedDesc : List ResumeRec → List ResumeRec
  | [] => []
  | x :: xs => insertByUpdatedDesc x (sortByUpdatedDesc xs)

/-- api.py `list_resumes` (GET /resumes): all non-deleted resumes of the
owner, sorted by `updated_at` descending. -/
def list_resumes (db : DB) (uid : String) : List ResumeListItem :=
  (sortByUpdatedDesc (db.resumes.filter (fun r => r.user_id == uid && !r.is_deleted))).map
    (fun r => ⟨r.id, r.target_role, r.date_uploaded, r.updated_at⟩)

/-! ## Tailoring pipeline (run_tailor.py, api.py `tailor_endpoint`) -/

/-- A section of the structured resume document, as consumed by
`resume_to_pdf`: a title plus a list of typed items.  Items are dicts whose
internals the ordering logic never inspects (only whole-dict equality for the
`s not in ordered_sections` membership test, and emptiness of the item list),
so the item type is a parameter with decidable equality. -/
structure DocSection (α : Type) where
  title : String
  items : List α
deriving DecidableEq, Repr

/-- The contact block of the structured document. -/
structure Contact where
  name : Option String
  email : Option String
  phone : Option String
  location : Option String
  links : List String
deriving DecidableEq, Repr

/-- Modelled from the spec: the structured document returned by the external
generation pipeline (the `TailoredResume` pydantic class is not among the
provided sources; models.py stops at the resume models).  Spec section 4.5:
"the pipeline returns a structured document (contact info, headline, ordered
sections of typed items)".  `headline` is a plain string; the Python code
treats the empty string as absent (truthiness). -/
structure TailoredResume (α : Type) where
  contact : Contact
  headline : String
  summary : String
  sections : List (DocSection α)
deriving DecidableEq, Repr

/-- run_tailor.py `extract_json`: strip the text, and if it is fenced with
triple backticks, return the first fenced part that is (possibly after a
`json` language tag) a braced blob; otherwise return the stripped text. -/
def extract_json_part (p : String) : Option String :=
  let p := p.trim
  if p.startsWith "\x7b" && p.endsWith "\x7d" then some p
  else if p.startsWith "json" then
    let j := (p.drop 4).trim
    if j.startsWith "\x7b" && j.endsWith "\x7d" then some j else none
  else none

/-- run_tailor.py `extract_json`. -/
def extract_json (text : String) : String :=
  let text := text.trim
  if text.startsWith "```" then
    match (text.splitOn "```").findSome? extract_json_part with
    | some j => j
    | none => text
  else text

/-- Lowercasing of a title string, character by character (Python
`str.lower()` on the ASCII titles involved). -/
def lowerStr (s : String) : String :=
  String.mk (s.data.map Char.toLower)

/-- Embedding of `resume_to_pdf`'s inner `find_section`: first section whose
title matches case-insensitively. -/
def find_section (sections : List (DocSection α)) (title : String) :
    Option (DocSection α) :=
  sections.find? (fun s => lowerStr s.title == lowerStr title)

/-- The second reordering loop of `resume_to_pdf`: append each section not
already present (by value equality) to the accumulator, which grows as it
goes, so exact duplicates are dropped. -/
def appendRemaining [DecidableEq α] (acc : List (DocSection α)) :
    List (DocSection α) → List (DocSection α)
  | [] => acc
  | s :: rest =>
    if s ∈ acc then appendRemaining acc rest
    else appendRemaining (acc ++ [s]) rest

/-- Embedding of `resume_to_pdf`'s `ordered_sections`: the first Education,
Experience and Projects sections (case-insensitive title match), in that
order, when present; then the remaining sections. -/
def ordered_sections [DecidableEq α] (sections : List (DocSection α)) :
    List (DocSection α) :=
  let picked := ([find_section sections "Education",
                  find_section sections "Experience",
                  find_section sections "Projects"]).filterMap id
  appendRemaining picked sections

/-- The sections actually laid out in the PDF story: `resume_to_pdf`'s render
loop skips any section with no items (`if not items: continue`). -/
def rendered_sections [DecidableEq α] (sections : List (DocSection α)) :
    List (DocSection α) :=
  (ordered_sections sections).filter (fun s => !s.items.isEmpty)

/-- The section ordering exactly as the claim states it: Education, then
Experience, then Projects (each included only when present, matched by
title), followed by every remaining section in its original relative
order. -/
def claimed_section_order [DecidableEq α] (sections : List (DocSection α)) :
    List (DocSection α) :=
  let picked := ([find_section sections "Education",
                  find_section sections "Experience",
                  find_section sections "Projects"]).filterMap id
  picked ++ sections.filter (fun s => decide (s ∉ picked))

/-- Embedding of run_tailor.py `safe_headline = (tailored.headline or
"tailored_resume").replace(" ", "_").lower()` plus the `.pdf` suffix; the
single-character replacement and the lowercasing are character maps. -/
def pipeline_filename (doc : TailoredResume α) : String :=
  String.mk (((if doc.headline == "" then "tailored_resume"
               else doc.headline).data.map
      (fun c => if c = ' ' then '_' else c)).map Char.toLower) ++ ".pdf"

/-- The pipeline fails when `crew.kickoff` raises or when the crew output
does not validate as a `TailoredResume`
(`TailoredResume.model_validate_json` raises). -/
inductive PipelineError where
  | kickoffFailed
  | invalidOutput
deriving DecidableEq, Repr

/-- run_tailor.py `run_tailor_pipeline` after intake: `crew.kickoff` (an
external oracle, either raising or returning raw text), `extract_json`,
pydantic validation (an external oracle `validate`), then reportlab
rendering (an external oracle `render`) and the filename.  Any exception
propagates as a `PipelineError`. -/
def run_tailor_pipeline (render : TailoredResume α → List Nat)
    (kickoff : Except Unit String)
    (validate : String → Option (TailoredResume α)) :
    Except PipelineError (List Nat × String) :=
  match kickoff with
  | .error _ => .error .kickoffFailed
  | .ok raw =>
    match validate (extract_json raw) with
    | none => .error .invalidOutput
    | some doc => .ok (render doc, pipeline_filename doc)

/-- The base64 alphabet. -/
def base64Char (n : Nat) : Char :=
  ( "ABCDEFGHIJKLMNOPQRSTUVWXYZabcdefghijklmnopqrstuvwxyz0123456789+/".toList).getD n '?'

/-- Standard base64 encoding of a byte list (`base64.b64encode`), grouping
three bytes into four characters with `=` padding. -/
def b64EncodeChars : List Nat → List Char
  | [] => []
  | [b1] => [base64Char (b1 / 4), base64Char (b1 % 4 * 16), '=', '=']
  | [b1, b2] =>
    [base64Char (b1 / 4), base64Char (b1 % 4 * 16 + b2 / 16),
     base64Char (b2 % 16 * 4), '=']
  | b1 :: b2 :: b3 :: rest =>
    base64Char (b1 / 4) :: base64Char (b1 % 4 * 16 + b2 / 16) ::
    base64Char (b2 % 16 * 4 + b3 / 64) :: base64Char (b3 % 64) ::
    b64EncodeChars rest

/-- Embedding of `base64.b64encode(pdf_bytes).decode("utf-8")`. -/
def b64Encode (bs : List Nat) : String :=
  String.mk (b64EncodeChars bs)

/-- The item type used at the endpoint: items are string-keyed dicts, opaque
to the glue code. -/
abbrev DictItem := List (String × String)

/-- The `result` object of the POST /tailor response. -/
structure TailorResult where
  id : String
  filename : String
  pdfBase64 : String
  pdfUrl : String
deriving DecidableEq, Repr

/-- The `pdfUrl` the endpoint puts in its response:
`f"/resumes/{inserted.inserted_id}/pdf"`. -/
def tailorPdfUrl (id : String) : String :=
  "/resumes/" ++ id ++ "/pdf"

/-- The path of the registered authenticated PDF-retrieval route
`GET /tailored-resumes/{resume_id}/pdf` for a given artifact id. -/
def tailored_pdf_route_path (id : String) : String :=
  "/tailored-resumes/" ++ id ++ "/pdf"

/-- api.py `tailor_endpoint` (POST /tailor), after the auth gate: run the
pipeline synchronously (an unhandled exception surfaces as a 500 server
error with no store write), then insert the artifact once and respond with
id, filename, inline base64 bytes and the reference path.  `freshId` is the
ObjectId Mongo mints for the insert. -/
def tailor_endpoint (db : DB) (render : TailoredResume DictItem → List Nat)
    (kickoff : Except Unit String)
    (validate : String → Option (TailoredResume DictItem))
    (uid : String) (jobLink : Option String) (now : Nat) (freshId : String) :
    DB × Except HErr TailorResult :=
  match run_tailor_pipeline render kickoff validate with
  | .error _ => (db, .error ⟨500, "Internal Server Error"⟩)
  | .ok (pdf_bytes, filename) =>
    let doc : ArtifactRec :=
      { id := freshId, user_id := uid, filename := filename,
        mime := "application/pdf", pdfData := pdf_bytes,
        jobLink := jobLink, createdAt := now }
    ({ db with tailored := db.tailored ++ [doc] },
     .ok ⟨freshId, filename, b64Encode pdf_bytes, tailorPdfUrl freshId⟩)

/-! ## Helper lemmas -/

theorem updateFirst_length (p : α → Bool) (f : α → α) (l : List α) :
    (updateFirst p f l).length = l.length := by
  induction l with
  | nil => rfl
  | cons x xs ih =>
    by_cases h : p x <;> simp [updateFirst, h, ih]

theorem forall₂_updateFirst (p : α → Bool) (f : α → α) (l : List α) :
    List.Forall₂ (fun w v => v = w ∨ v = f w) l (updateFirst p f l) := by
  induction l with
  | nil => exact List.Forall₂.nil
  | cons x xs ih =>
    by_cases h : p x
    · simp only [updateFirst, h, if_pos]
      exact List.Forall₂.cons (Or.inr rfl)
        ((List.forall₂_same).mpr (fun y _ => Or.inl rfl))
    · simp only [updateFirst, h, if_neg, Bool.false_eq_true, not_false_iff]
      exact List.Forall₂.cons (Or.inl rfl) ih

theorem find?_updateFirst (p : α → Bool) (f : α → α) (l : List α)
    (hp : ∀ x, p (f x) = p x) :
    (updateFirst p f l).find? p = (l.find? p).map f := by
  induction l with
  | nil => rfl
  | cons x xs ih =>
    by_cases h : p x
    · simp [updateFirst, h, List.find?, hp]
    · simp [updateFirst, h, List.find?, ih]

theorem updateFirst_eq_map (p : α → Bool) (f : α → α) (l : List α)
    (huniq : l.Pairwise (fun a b => ¬(p a = true ∧ p b = true))) :
    updateFirst p f l = l.map (fun x => if p x then f x else x) := by
  induction l with
  | nil => rfl
  | cons x xs ih =>
    rcases List.pairwise_cons.mp huniq with ⟨hx, hxs⟩
    by_cases h : p x
    · simp only [updateFirst, h, if_pos, List.map_cons]
      have hrest : ∀ y ∈ xs, (if p y then f y else y) = y := by
        intro y hy
        have hpy : ¬ p y = true := fun hy' => hx y hy ⟨h, hy'⟩
        simp [hpy]
      rw [List.map_congr_left hrest]
      simp
    · simp only [updateFirst, h, if_neg, Bool.false_eq_true, not_false_iff,
        List.map_cons, ih hxs]

theorem find?_eq_some_of_unique (p : α → Bool) (l : List α) (r : α)
    (hmem : r ∈ l) (hpr : p r = true)
    (huniq : l.Pairwise (fun a b => ¬(p a = true ∧ p b = true))) :
    l.find? p = some r := by
  induction l with
  | nil => cases hmem
  | cons x xs ih =>
    rcases List.pairwise_cons.mp huniq with ⟨hx, hxs⟩
    rcases List.mem_cons.mp hmem with rfl | hr
    · simp [List.find?, hpr]
    · have hpx : ¬ p x = true := fun hx' => hx r hr ⟨hx', hpr⟩
      simp [List.find?, hpx, ih hr hxs]

theorem mem_insertByUpdatedDesc (r x : ResumeRec) (l : List ResumeRec) :
    x ∈ insertByUpdatedDesc r l ↔ x = r ∨ x ∈ l := by
  induction l with
  | nil => simp [insertByUpdatedDesc]
  | cons y ys ih =>
    by_cases h : y.updated_at < r.updated_at
    · simp [insertByUpdatedDesc, h]
    · simp [insertByUpdatedDesc, h, ih]
      tauto

theorem mem_sortByUpdatedDesc (x : ResumeRec) (l : List ResumeRec) :
    x ∈ sortByUpdatedDesc l ↔ x ∈ l := by
  induction l with
  | nil => simp [sortByUpdatedDesc]
  | cons y ys ih =>
    simp [sortByUpdatedDesc, mem_insertByUpdatedDesc, ih]

theorem find?_visible_eq_none {db : DB} {uid rid : String}
    (hmiss : ∀ r ∈ db.resumes, r.id = rid → r.user_id ≠ uid ∨ r.is_deleted = true) :
    db.resumes.find? (visibleFilter uid rid) = none := by
  rw [List.find?_eq_none]
  intro x hx hvf
  simp only [visibleFilter, Bool.and_eq_true, beq_iff_eq, Bool.not_eq_true'] at hvf
  rcases hvf with ⟨⟨hid, huid⟩, hdel⟩
  rcases hmiss x hx hid with h | h
  · exact h huid
  · rw [h] at hdel; cases hdel

theorem appendRemaining_eq_append [DecidableEq α] (l acc : List (DocSection α))
    (hnd : l.Nodup) :
    appendRemaining acc l = acc ++ l.filter (fun s => decide (s ∉ acc)) := by
  induction l generalizing acc with
  | nil => simp [appendRemaining]
  | cons s rest ih =>
    rcases List.nodup_cons.mp hnd with ⟨hs, hrest⟩
    by_cases hmem : s ∈ acc
    · simp only [appendRemaining, if_pos hmem]
      rw [ih acc hrest]
      congr 1
      simp [List.filter, hmem]
    · simp only [appendRemaining, if_neg hmem]
      rw [ih (acc ++ [s]) hrest]
      have hfeq : rest.filter (fun x => decide (x ∉ acc ++ [s]))
          = rest.filter (fun x => decide (x ∉ acc)) := by
        apply List.filter_congr
        intro x hx
        have hxs : x ≠ s := fun h => hs (h ▸ hx)
        simp [List.mem_append, hxs]
      rw [hfeq]
      simp [List.filter, hmem, List.append_assoc]

/-! ## Claims -/

/-- C1: For every well-formed resume id that refers to a resume belonging to
a different owner, to a soft-deleted resume, or to no resume at all, the
get, update and delete operations all fail with the same NotFound error
(HTTP 404, detail "Resume not found"), leaving the store unchanged, so the
caller cannot distinguish the three situations. -/
theorem resume_notfound_uniform (db : DB) (uid rid : String)
    (upd : ResumeUpdate) (now now2 : Nat)
    (hvalid : ObjectId.isValid rid = true)
    (hmiss : ∀ r ∈ db.resumes, r.id = rid → r.user_id ≠ uid ∨ r.is_deleted = true) :
    get_resume db uid rid = .error ⟨404, "Resume not found"⟩ ∧
    update_resume db uid rid upd now = (db, .error ⟨404, "Resume not found"⟩) ∧
    delete_resume db uid rid now2 = (db, .error ⟨404, "Resume not found"⟩) := by
  have hnone := find?_visible_eq_none hmiss
  refine ⟨?_, ?_, ?_⟩ <;>
    simp [get_resume, update_resume, delete_resume, hvalid, hnone]

/-- Witness for C1: user bob probing a resume owned by alice. -/
theorem resume_notfound_uniform_witness :
    get_resume ⟨[], [⟨"0123456789abcdef01234567", "alice", "SWE", "c", 0, 0, false⟩], []⟩
        "bob" "0123456789abcdef01234567" = .error ⟨404, "Resume not found"⟩ ∧
    update_resume ⟨[], [⟨"0123456789abcdef01234567", "alice", "SWE", "c", 0, 0, false⟩], []⟩
        "bob" "0123456789abcdef01234567" ⟨none, none⟩ 5 =
      (⟨[], [⟨"0123456789abcdef01234567", "alice", "SWE", "c", 0, 0, false⟩], []⟩,
       .error ⟨404, "Resume not found"⟩) ∧
    delete_resume ⟨[], [⟨"0123456789abcdef01234567", "alice", "SWE", "c", 0, 0, false⟩], []⟩
        "bob" "0123456789abcdef01234567" 6 =
      (⟨[], [⟨"0123456789abcdef01234567", "alice", "SWE", "c", 0, 0, false⟩], []⟩,
       .error ⟨404, "Resume not found"⟩) :=
  resume_notfound_uniform _ "bob" "0123456789abcdef01234567" ⟨none, none⟩ 5 6
    (by decide) (by decide)

/-- C2 counterexample: a malformed resume id makes get fail with 400
"Invalid resume ID", not with the NotFound error the claim states. -/
theorem invalid_id_not_notfound :
    get_resume ⟨[], [], []⟩ "u1" "not-a-valid-objectid"
      = .error ⟨400, "Invalid resume ID"⟩ ∧
    (⟨400, "Invalid resume ID"⟩ : HErr) ≠ ⟨404, "Resume not found"⟩ := by
  decide

/-- C2 (amended): for every resume_id string that is not a well-formed
identifier, get fails with InvalidInput (HTTP 400, detail "Invalid resume
ID"), as do update and delete under the same condition. -/
theorem invalid_id_rejected (db : DB) (uid rid : String)
    (upd : ResumeUpdate) (now now2 : Nat)
    (hinv : ObjectId.isValid rid = false) :
    get_resume db uid rid = .error ⟨400, "Invalid resume ID"⟩ ∧
    update_resume db uid rid upd now = (db, .error ⟨400, "Invalid resume ID"⟩) ∧
    delete_resume db uid rid now2 = (db, .error ⟨400, "Invalid resume ID"⟩) := by
  refine ⟨?_, ?_, ?_⟩ <;> simp [get_resume, update_resume, delete_resume, hinv]

/-- Witness for C2 (amended), at a concretely malformed id. -/
theorem invalid_id_rejected_witness :
    get_resume ⟨[], [], []⟩ "u1" "short" = .error ⟨400, "Invalid resume ID"⟩ ∧
    update_resume ⟨[], [], []⟩ "u1" "short" ⟨some "r", none⟩ 3 =
      (⟨[], [], []⟩, .error ⟨400, "Invalid resume ID"⟩) ∧
    delete_resume ⟨[], [], []⟩ "u1" "short" 4 =
      (⟨[], [], []⟩, .error ⟨400, "Invalid resume ID"⟩) :=
  invalid_id_rejected ⟨[], [], []⟩ "u1" "short" ⟨some "r", none⟩ 3 4 (by decide)

/-- C3 counterexample: a request with a missing session cookie and one with
a malformed token both fail with 401, but with different detail messages, so
the four causes do not share a single generic message. -/
theorem auth_gate_message_distinct :
    get_current_user_id 0 .missing = .error ⟨401, "Not authenticated"⟩ ∧
    get_current_user_id 0 .malformed
      = .error ⟨401, "Invalid authentication credentials"⟩ ∧
    ( "Not authenticated" : String) ≠ "Invalid authentication credentials" := by
  decide

/-- C3 (amended): every request with a missing, malformed, badly-signed, or
expired session credential fails with status 401; the malformed,
badly-signed and expired causes share the identical generic detail "Invalid
authentication credentials", while the missing-credential cause yields "Not
authenticated", so only the presence of a credential is distinguishable. -/
theorem auth_gate_unauthorized (now exp1 exp2 : Nat)
    (sub1 sub2 : Option String) (sigOk : Bool)
    (hexp : exp2 < now) :
    get_current_user_id now .missing = .error ⟨401, "Not authenticated"⟩ ∧
    get_current_user_id now .malformed
      = .error ⟨401, "Invalid authentication credentials"⟩ ∧
    get_current_user_id now (.token sub1 false exp1)
      = .error ⟨401, "Invalid authentication credentials"⟩ ∧
    get_current_user_id now (.token sub2 sigOk exp2)
      = .error ⟨401, "Invalid authentication credentials"⟩ := by
  refine ⟨rfl, rfl, rfl, ?_⟩
  cases sigOk
  · rfl
  · simp [get_current_user_id, hexp]

/-- Witness for C3 (amended): a concrete clock, an unexpired badly-signed
token and an expired well-signed token. -/
theorem auth_gate_unauthorized_witness :
    get_current_user_id 100 .missing = .error ⟨401, "Not authenticated"⟩ ∧
    get_current_user_id 100 .malformed
      = .error ⟨401, "Invalid authentication credentials"⟩ ∧
    get_current_user_id 100 (.token (some "u1") false 200)
      = .error ⟨401, "Invalid authentication credentials"⟩ ∧
    get_current_user_id 100 (.token (some "u1") true 99)
      = .error ⟨401, "Invalid authentication credentials"⟩ :=
  auth_gate_unauthorized 100 200 99 (some "u1") (some "u1") true (by decide)

/-- C10 counterexample: a well-signed, unexpired token whose embedded user
id ("some-user") matches no stored user record makes /auth/me fail with an
unhandled `bson.errors.InvalidId` error (500) — because the id is not a
well-formed ObjectId — and not with the 404 "User not found" the claim
states for every such request. -/
theorem auth_me_malformed_sub_500 :
    auth_me ⟨[], [], []⟩ 5 (.token (some "some-user") true 10)
      = .error ⟨500, "Internal Server Error"⟩ ∧
    auth_me ⟨[], [], []⟩ 5 (.token (some "some-user") true 10)
      ≠ .error ⟨404, "User not found"⟩ := by
  decide

/-- C10 (amended): for every request to /auth/me carrying a verifying
session token whose embedded user id is a well-formed identifier that
matches no stored user record, the endpoint fails with 404 "User not found"
rather than 401; a verifying token whose embedded id is not even well formed
instead raises an unhandled error (500). -/
theorem auth_me_unknown_user (db : DB) (uid : String) (exp now : Nat)
    (hexp : ¬ exp < now)
    (hvalid : ObjectId.isValid uid = true)
    (hnone : db.users.find? (fun u => u.id == uid) = none) :
    auth_me db now (.token (some uid) true exp)
      = .error ⟨404, "User not found"⟩ := by
  simp [auth_me, get_current_user_id, hexp, hvalid, hnone]

/-- Witness for C10 (amended): a well-formed, unknown user id in a valid
token against an empty user collection. -/
theorem auth_me_unknown_user_witness :
    auth_me ⟨[], [], []⟩ 5 (.token (some "0123456789abcdef01234567") true 10)
      = .error ⟨404, "User not found"⟩ :=
  auth_me_unknown_user ⟨[], [], []⟩ "0123456789abcdef01234567" 10 5
    (by decide) (by decide) rfl

/-- A concrete structured document, used to evaluate the tailoring glue. -/
def doc0 : TailoredResume DictItem :=
  { contact := ⟨none, none, none, none, []⟩,
    headline := "Backend Engineer", summary := "", sections := [] }

/-- C9: on a successful tailoring request the response's pdfUrl is the path
"/resumes/{id}/pdf", while the registered authenticated PDF-retrieval route
for that artifact is "/tailored-resumes/{id}/pdf"; the two differ, so the
returned reference path does not retrieve the artifact. -/
theorem tailor_pdfUrl_mismatch :
    (tailor_endpoint ⟨[], [], []⟩ (fun _ => [37]) (.ok "raw") (fun _ => some doc0)
        "u1" none 7 "0123456789abcdef01234567").2
      = .ok ⟨"0123456789abcdef01234567", "backend_engineer.pdf", "JQ==",
             "/resumes/0123456789abcdef01234567/pdf"⟩ ∧
    tailored_pdf_route_path "0123456789abcdef01234567"
      = "/tailored-resumes/0123456789abcdef01234567/pdf" ∧
    "/resumes/0123456789abcdef01234567/pdf"
      ≠ "/tailored-resumes/0123456789abcdef01234567/pdf" := by
  refine ⟨?_, by decide, by decide⟩
  decide

/-- C4: a pipeline failure — `crew.kickoff` raising, or output that does not
validate as a structured resume — surfaces to the caller as a server error
and leaves the store untouched (no artifact is persisted), while a
successful pipeline run persists exactly one artifact, after rendering, as a
single insert, and responds with it. -/
theorem tailor_persist_after_render (db : DB)
    (render : TailoredResume DictItem → List Nat)
    (validate : String → Option (TailoredResume DictItem)) (raw : String)
    (uid : String) (jobLink : Option String) (now : Nat) (freshId : String) :
    tailor_endpoint db render (.error ()) validate uid jobLink now freshId
      = (db, .error ⟨500, "Internal Server Error"⟩) ∧
    (validate (extract_json raw) = none →
      tailor_endpoint db render (.ok raw) validate uid jobLink now freshId
        = (db, .error ⟨500, "Internal Server Error"⟩)) ∧
    (∀ doc, validate (extract_json raw) = some doc →
      tailor_endpoint db render (.ok raw) validate uid jobLink now freshId
        = ({ db with tailored := db.tailored ++
              [⟨freshId, uid, pipeline_filename doc, "application/pdf",
                render doc, jobLink, now⟩] },
           .ok ⟨freshId, pipeline_filename doc, b64Encode (render doc),
                tailorPdfUrl freshId⟩)) := by
  refine ⟨rfl, ?_, ?_⟩
  · intro h
    simp [tailor_endpoint, run_tailor_pipeline, h]
  · intro doc h
    simp [tailor_endpoint, run_tailor_pipeline, h]

/-- Witness for C4: a concrete successful pipeline run inserting exactly one
artifact. -/
theorem tailor_persist_after_render_witness :
    tailor_endpoint ⟨[], [], []⟩ (fun _ => [37]) (.ok "raw") (fun _ => some doc0)
        "u1" none 7 "0123456789abcdef01234568"
      = (⟨[], [], [⟨"0123456789abcdef01234568", "u1", "backend_engineer.pdf",
            "application/pdf", [37], none, 7⟩]⟩,
         .ok ⟨"0123456789abcdef01234568", "backend_engineer.pdf", "JQ==",
              "/resumes/0123456789abcdef01234568/pdf"⟩) := by
  have h := (tailor_persist_after_render ⟨[], [], []⟩ (fun _ => [37])
      (fun _ => some doc0) "raw" "u1" none 7 "0123456789abcdef01234568").2.2 doc0 rfl
  rw [h]
  decide

/-- C5: a successful partial update changes exactly the fields present in
the partial update to the given values, leaves every absent field at its
prior value, refreshes updated_at to the current time even when no content
field is present, and leaves every other resume record untouched; the
response reflects the updated record. -/
theorem update_partial_fields (db : DB) (uid rid : String)
    (upd : ResumeUpdate) (now : Nat) (r : ResumeRec)
    (hids : db.resumes.Pairwise (fun a b => a.id ≠ b.id))
    (hvalid : ObjectId.isValid rid = true)
    (hfind : db.resumes.find? (visibleFilter uid rid) = some r) :
    update_resume db uid rid upd now =
      ({ db with resumes := db.resumes.map (fun w =>
          if w.id == rid then
            { w with target_role := upd.target_role.getD w.target_role,
                     content := upd.content.getD w.content,
                     updated_at := now }
          else w) },
       .ok ⟨r.id, upd.target_role.getD r.target_role,
            upd.content.getD r.content, r.date_uploaded, now⟩) := by
  have hpr : visibleFilter uid rid r = true := List.find?_some hfind
  have hrid : r.id = rid := by
    simp only [visibleFilter, Bool.and_eq_true, beq_iff_eq] at hpr
    exact hpr.1.1
  have hmem : r ∈ db.resumes := List.mem_of_find?_eq_some hfind
  have huniq : db.resumes.Pairwise
      (fun a b => ¬((a.id == rid) = true ∧ (b.id == rid) = true)) := by
    refine hids.imp ?_
    intro a b hab ⟨ha, hb⟩
    exact hab ((beq_iff_eq.mp ha).trans (beq_iff_eq.mp hb).symm)
  have hfind_id : db.resumes.find? (fun x => x.id == rid) = some r :=
    find?_eq_some_of_unique _ _ r hmem (by simp [hrid]) huniq
  have hid_pres : ∀ x : ResumeRec,
      ((apply_update upd now x).id == rid) = (x.id == rid) := by
    intro x; rfl
  have hfind2 : (updateFirst (fun x => x.id == rid) (apply_update upd now)
        db.resumes).find? (fun x => x.id == rid)
      = some (apply_update upd now r) := by
    rw [find?_updateFirst _ _ _ hid_pres, hfind_id, Option.map_some']
  have hmap := updateFirst_eq_map (fun x => x.id == rid)
    (apply_update upd now) db.resumes huniq
  unfold update_resume
  rw [hvalid]
  simp only [Bool.not_true, Bool.false_eq_true, if_false, hfind]
  rw [hfind2, hmap]
  rfl

/-- Witness for C5: an update with no fields present still refreshes
updated_at and changes nothing else. -/
theorem update_partial_fields_witness :
    update_resume
        ⟨[], [⟨"0123456789abcdef01234567", "bob", "Old Role", "old", 3, 3, false⟩], []⟩
        "bob" "0123456789abcdef01234567" ⟨none, none⟩ 9 =
      (⟨[], [⟨"0123456789abcdef01234567", "bob", "Old Role", "old", 3, 9, false⟩], []⟩,
       .ok ⟨"0123456789abcdef01234567", "Old Role", "old", 3, 9⟩) := by
  have h := update_partial_fields
    ⟨[], [⟨"0123456789abcdef01234567", "bob", "Old Role", "old", 3, 3, false⟩], []⟩
    "bob" "0123456789abcdef01234567" ⟨none, none⟩ 9
    ⟨"0123456789abcdef01234567", "bob", "Old Role", "old", 3, 3, false⟩
    (by simp) (by decide) (by decide)
  rw [h]
  decide

/-- C6: a successful soft delete acknowledges, flips is_deleted to true and
refreshes updated_at while keeping the record in storage (same collection
size, record still present); afterwards the resume is absent from the
owner's list, get returns the NotFound error, and a second delete also
returns the NotFound error. -/
theorem soft_delete_lifecycle (db : DB) (uid rid : String) (now now2 : Nat)
    (r : ResumeRec) (db2 : DB) (res : Except HErr String)
    (hids : db.resumes.Pairwise (fun a b => a.id ≠ b.id))
    (hvalid : ObjectId.isValid rid = true)
    (hfind : db.resumes.find? (visibleFilter uid rid) = some r)
    (heq : delete_resume db uid rid now = (db2, res)) :
    res = .ok "Resume deleted successfully" ∧
    db2.resumes = db.resumes.map (fun w =>
      if w.id == rid then { w with is_deleted := true, updated_at := now } else w) ∧
    db2.resumes.length = db.resumes.length ∧
    { r with is_deleted := true, updated_at := now } ∈ db2.resumes ∧
    (∀ item ∈ list_resumes db2 uid, item.id ≠ rid) ∧
    get_resume db2 uid rid = .error ⟨404, "Resume not found"⟩ ∧
    (delete_resume db2 uid rid now2).2 = .error ⟨404, "Resume not found"⟩ := by
  have hpr : visibleFilter uid rid r = true := List.find?_some hfind
  have hrid : r.id = rid := by
    simp only [visibleFilter, Bool.and_eq_true, beq_iff_eq] at hpr
    exact hpr.1.1
  have hmem : r ∈ db.resumes := List.mem_of_find?_eq_some hfind
  have huniq : db.resumes.Pairwise
      (fun a b => ¬((a.id == rid) = true ∧ (b.id == rid) = true)) := by
    refine hids.imp ?_
    intro a b hab ⟨ha, hb⟩
    exact hab ((beq_iff_eq.mp ha).trans (beq_iff_eq.mp hb).symm)
  have hmap := updateFirst_eq_map (fun x => x.id == rid)
    (fun w => { w with is_deleted := true, updated_at := now }) db.resumes huniq
  have hdel : delete_resume db uid rid now
      = ({ db with resumes := (updateFirst (fun x => x.id == rid)
            (fun w => { w with is_deleted := true, updated_at := now }) db.resumes) },
         .ok "Resume deleted successfully") := by
    unfold delete_resume
    rw [hvalid]
    simp only [Bool.not_true, Bool.false_eq_true, if_false, hfind]
  rw [hdel] at heq
  have hdb2 : db2 = { db with resumes := (updateFirst (fun x => x.id == rid)
      (fun w => { w with is_deleted := true, updated_at := now }) db.resumes) } :=
    (congrArg Prod.fst heq).symm
  have hres : res = .ok "Resume deleted successfully" :=
    (congrArg Prod.snd heq).symm
  have hmap2 : db2.resumes = db.resumes.map (fun w =>
      if (w.id == rid) = true
      then { w with is_deleted := true, updated_at := now } else w) := by
    rw [hdb2]
    exact hmap
  have hmiss2 : ∀ y ∈ db2.resumes, y.id = rid → y.user_id ≠ uid ∨ y.is_deleted = true := by
    intro y hy hyid
    rw [hmap2] at hy
    obtain ⟨w, hw, hwy⟩ := List.mem_map.mp hy
    by_cases hwid : (w.id == rid) = true
    · right
      rw [← hwy]
      simp [hwid]
    · exfalso
      rw [if_neg hwid] at hwy
      exact hwid (beq_iff_eq.mpr (hwy ▸ hyid))
  have hnone2 : db2.resumes.find? (visibleFilter uid rid) = none :=
    find?_visible_eq_none hmiss2
  refine ⟨hres, hmap2, ?_, ?_, ?_, ?_, ?_⟩
  · rw [hmap2, List.length_map]
  · rw [hmap2]
    have hin := List.mem_map_of_mem (fun w =>
      if (w.id == rid) = true
      then { w with is_deleted := true, updated_at := now } else w) hmem
    simpa [hrid] using hin
  · intro item hitem
    unfold list_resumes at hitem
    obtain ⟨x, hx, rfl⟩ := List.mem_map.mp hitem
    rw [mem_sortByUpdatedDesc] at hx
    have hq := List.of_mem_filter hx
    have hxmem := List.mem_of_mem_filter hx
    simp only [Bool.and_eq_true, Bool.not_eq_true'] at hq
    intro hxid
    rw [hmap2] at hxmem
    obtain ⟨w, hw, hwx⟩ := List.mem_map.mp hxmem
    by_cases hwid : (w.id == rid) = true
    · rw [if_pos hwid] at hwx
      rw [← hwx] at hq
      exact absurd hq.2 (by simp)
    · rw [if_neg hwid] at hwx
      exact hwid (beq_iff_eq.mpr (hwx ▸ hxid))
  · simp [get_resume, hvalid, hnone2]
  · simp [delete_resume, hvalid, hnone2]

/-- Witness for C6: bob soft-deletes a visible resume; the record stays in
the collection with is_deleted set and updated_at refreshed, then list/get
no longer see it and a second delete yields the NotFound error. -/
theorem soft_delete_lifecycle_witness :
    (Except.ok "Resume deleted successfully" : Except HErr String)
      = .ok "Resume deleted successfully" ∧
    (⟨[], [⟨"0123456789abcdef01234567", "bob", "SWE", "c", 3, 5, true⟩], []⟩ : DB).resumes
      = ([⟨"0123456789abcdef01234567", "bob", "SWE", "c", 3, 3, false⟩] : List ResumeRec).map
          (fun w => if w.id == "0123456789abcdef01234567"
            then { w with is_deleted := true, updated_at := 5 } else w) ∧
    (⟨[], [⟨"0123456789abcdef01234567", "bob", "SWE", "c", 3, 5, true⟩], []⟩ : DB).resumes.length
      = ([⟨"0123456789abcdef01234567", "bob", "SWE", "c", 3, 3, false⟩] : List ResumeRec).length ∧
    (⟨"0123456789abcdef01234567", "bob", "SWE", "c", 3, 5, true⟩ : ResumeRec)
      ∈ (⟨[], [⟨"0123456789abcdef01234567", "bob", "SWE", "c", 3, 5, true⟩], []⟩ : DB).resumes ∧
    (∀ item ∈ list_resumes
        ⟨[], [⟨"0123456789abcdef01234567", "bob", "SWE", "c", 3, 5, true⟩], []⟩ "bob",
      item.id ≠ "0123456789abcdef01234567") ∧
    get_resume ⟨[], [⟨"0123456789abcdef01234567", "bob", "SWE", "c", 3, 5, true⟩], []⟩
        "bob" "0123456789abcdef01234567" = .error ⟨404, "Resume not found"⟩ ∧
    (delete_resume ⟨[], [⟨"0123456789abcdef01234567", "bob", "SWE", "c", 3, 5, true⟩], []⟩
        "bob" "0123456789abcdef01234567" 6).2 = .error ⟨404, "Resume not found"⟩ :=
  soft_delete_lifecycle
    ⟨[], [⟨"0123456789abcdef01234567", "bob", "SWE", "c", 3, 3, false⟩], []⟩
    "bob" "0123456789abcdef01234567" 5 6
    ⟨"0123456789abcdef01234567", "bob", "SWE", "c", 3, 3, false⟩
    ⟨[], [⟨"0123456789abcdef01234567", "bob", "SWE", "c", 3, 5, true⟩], []⟩
    (.ok "Resume deleted successfully")
    (by simp) (by decide) (by decide) (by decide)

theorem google_login_found (db : DB) (info : UserInfo) (now : Nat) (fid : String)
    (u : UserRec)
    (hu : db.users.find? (fun v => v.google_sub == info.google_sub) = some u) :
    google_login db info now fid
      = ({ db with users := (updateFirst (fun v => v.google_sub == info.google_sub)
            (fun v => { v with last_login_at := now }) db.users) },
         ⟨u.id, info.email⟩) := by
  unfold google_login
  rw [hu]

theorem google_login_not_found (db : DB) (info : UserInfo) (now : Nat) (fid : String)
    (hn : db.users.find? (fun v => v.google_sub == info.google_sub) = none) :
    google_login db info now fid
      = ({ db with users := (db.users ++
            [{ id := fid, google_sub := info.google_sub, email := info.email,
               created_at := now, last_login_at := now }]) },
         ⟨fid, info.email⟩) := by
  unfold google_login
  rw [hn]

theorem google_login_sub_present (db : DB) (info : UserInfo) (now : Nat)
    (fid : String) :
    ((google_login db info now fid).1.users.find?
      (fun v => v.google_sub == info.google_sub)).isSome = true := by
  cases hu : db.users.find? (fun v => v.google_sub == info.google_sub) with
  | some u =>
    rw [google_login_found db info now fid u hu]
    show ((updateFirst (fun v => v.google_sub == info.google_sub)
        (fun v => { v with last_login_at := now }) db.users).find?
        (fun v => v.google_sub == info.google_sub)).isSome = true
    have hp : ∀ x : UserRec,
        (({ x with last_login_at := now } : UserRec).google_sub
          == info.google_sub) = (x.google_sub == info.google_sub) :=
      fun _ => rfl
    rw [find?_updateFirst (fun v => v.google_sub == info.google_sub)
      (fun v => { v with last_login_at := now }) db.users hp, hu]
    rfl
  | none =>
    rw [google_login_not_found db info now fid hu]
    show ((db.users ++
        [({ id := fid, google_sub := info.google_sub, email := info.email,
            created_at := now, last_login_at := now } : UserRec)]).find?
        (fun v => v.google_sub == info.google_sub)).isSome = true
    rw [List.find?_append, hu]
    simp [List.find?]

theorem google_login_length_of_found (db : DB) (info : UserInfo) (now : Nat)
    (fid : String)
    (h : (db.users.find? (fun v => v.google_sub == info.google_sub)).isSome
          = true) :
    (google_login db info now fid).1.users.length = db.users.length := by
  cases hu : db.users.find? (fun v => v.google_sub == info.google_sub) with
  | none => rw [hu] at h; cases h
  | some u =>
    rw [google_login_found db info now fid u hu]
    exact updateFirst_length _ _ _

/-- C7: a login with an already-known external subject identifier returns
the existing user's id, keeps the user collection the same size, changes no
field of any user other than last_login_at (which becomes the current time
for the matched record); a login with an unknown subject appends exactly one
record with created_at = last_login_at = now and returns its id; and a
repeat login with the same identity never adds a second record. -/
theorem login_upsert (db : DB) (info : UserInfo) (now now2 : Nat)
    (fid fid2 : String) :
    (∀ u, db.users.find? (fun v => v.google_sub == info.google_sub) = some u →
      (google_login db info now fid).2.user_id = u.id ∧
      (google_login db info now fid).1.users.length = db.users.length ∧
      List.Forall₂ (fun w v => v = w ∨ v = { w with last_login_at := now })
        db.users (google_login db info now fid).1.users ∧
      (google_login db info now fid).1.users.find?
          (fun v => v.google_sub == info.google_sub)
        = some { u with last_login_at := now }) ∧
    (db.users.find? (fun v => v.google_sub == info.google_sub) = none →
      (google_login db info now fid).1.users
        = db.users ++ [{ id := fid, google_sub := info.google_sub,
                         email := info.email, created_at := now,
                         last_login_at := now }] ∧
      (google_login db info now fid).2.user_id = fid) ∧
    (google_login (google_login db info now fid).1 info now2 fid2).1.users.length
      = (google_login db info now fid).1.users.length := by
  refine ⟨?_, ?_, ?_⟩
  · intro u hu
    rw [google_login_found db info now fid u hu]
    refine ⟨rfl, updateFirst_length _ _ _, forall₂_updateFirst _ _ _, ?_⟩
    show (updateFirst (fun v => v.google_sub == info.google_sub)
        (fun v => { v with last_login_at := now }) db.users).find?
        (fun v => v.google_sub == info.google_sub)
      = some { u with last_login_at := now }
    have hp : ∀ x : UserRec,
        (({ x with last_login_at := now } : UserRec).google_sub
          == info.google_sub) = (x.google_sub == info.google_sub) :=
      fun _ => rfl
    rw [find?_updateFirst (fun v => v.google_sub == info.google_sub)
      (fun v => { v with last_login_at := now }) db.users hp, hu, Option.map_some']
  · intro hn
    rw [google_login_not_found db info now fid hn]
    exact ⟨rfl, rfl⟩
  · exact google_login_length_of_found _ info now2 fid2
      (google_login_sub_present db info now fid)

/-- Witness for C7: a first login against an empty user collection creates
one record; a repeat login with the same identity adds none. -/
theorem login_upsert_witness :
    (google_login ⟨[], [], []⟩ ⟨"sub1", "a@b.c"⟩ 4 "0123456789abcdef01234567").1.users
      = [] ++ [⟨"0123456789abcdef01234567", "sub1", "a@b.c", 4, 4⟩] ∧
    (google_login ⟨[], [], []⟩ ⟨"sub1", "a@b.c"⟩ 4 "0123456789abcdef01234567").2.user_id
      = "0123456789abcdef01234567" ∧
    (google_login (google_login ⟨[], [], []⟩ ⟨"sub1", "a@b.c"⟩ 4
          "0123456789abcdef01234567").1
        ⟨"sub1", "a@b.c"⟩ 9 "aaaaaaaaaaaaaaaaaaaaaaaa").1.users.length
      = (google_login ⟨[], [], []⟩ ⟨"sub1", "a@b.c"⟩ 4
          "0123456789abcdef01234567").1.users.length := by
  have h := login_upsert ⟨[], [], []⟩ ⟨"sub1", "a@b.c"⟩ 4 9
    "0123456789abcdef01234567" "aaaaaaaaaaaaaaaaaaaaaaaa"
  obtain ⟨hb1, hb2⟩ := h.2.1 rfl
  exact ⟨hb1, hb2, h.2.2⟩

/-- C8 counterexample: a document whose only section ("Skills") has no items
is dropped from the rendered PDF entirely, so the output does not contain
every remaining section in its original order as the claim states. -/
theorem section_order_empty_section_dropped :
    rendered_sections [⟨"Skills", ([] : List Nat)⟩]
      ≠ claimed_section_order [⟨"Skills", ([] : List Nat)⟩] := by
  decide

/-- C8 (amended): for every structured document whose sections are pairwise
distinct and each carry at least one item, the rendered PDF lays the
sections out as Education, then Experience, then Projects (each included
only when present, first match by case-insensitive title), followed by every
remaining section in its original relative order; a section with no items is
omitted from the PDF, and an exact duplicate of an already-placed section is
dropped. -/
theorem section_order_amended {α : Type} [DecidableEq α]
    (sections : List (DocSection α))
    (hnd : sections.Nodup)
    (hne : ∀ s ∈ sections, s.items ≠ []) :
    rendered_sections sections = claimed_section_order sections := by
  simp only [rendered_sections, ordered_sections, claimed_section_order]
  rw [appendRemaining_eq_append _ _ hnd]
  apply List.filter_eq_self.mpr
  intro s hs
  have hsmem : s ∈ sections := by
    rcases List.mem_append.mp hs with h | h
    · simp only [List.mem_filterMap, id] at h
      obtain ⟨o, ho, hoeq⟩ := h
      subst hoeq
      simp only [List.mem_cons, List.not_mem_nil, or_false] at ho
      rcases ho with ho | ho | ho
      · exact List.mem_of_find?_eq_some ho.symm
      · exact List.mem_of_find?_eq_some ho.symm
      · exact List.mem_of_find?_eq_some ho.symm
    · exact List.mem_of_mem_filter h
  have := hne s hsmem
  simpa [List.isEmpty_iff] using this

/-- Witness for C8 (amended): distinct nonempty sections are reordered to
Education, Projects, then the remaining Skills section. -/
theorem section_order_amended_witness :
    rendered_sections
        [⟨"Projects", ([1] : List Nat)⟩, ⟨"Education", [2]⟩, ⟨"Skills", [3]⟩]
      = claimed_section_order
        [⟨"Projects", ([1] : List Nat)⟩, ⟨"Education", [2]⟩, ⟨"Skills", [3]⟩] :=
  section_order_amended _ (by decide) (by decide)
